import Mathlib

/-
  Shallow embedding of `src/include/FreeRTOSpp.h` (namespace FreeRTOSpp).

  The header defines five thin wrapper classes over FreeRTOS kernel
  primitives: `Task<T>`, `CTask`, `TaskBase`, `Semaphore`, `Mutex`.
  Each wrapper stores a kernel handle; its methods forward to kernel
  calls.  We model a kernel handle as `Option Nat` (`none` is the C
  `NULL`), and every method returns, besides its C++ return value and
  the updated object state, the list of kernel calls it performed, in
  order.  The outcome of each kernel call (whether `xTaskCreatePinnedToCore`
  returns `pdPASS` and which handle it writes, whether a semaphore
  operation returns `pdTRUE`) is an input to the model, since it is
  decided by the wrapped kernel, which the repository treats as a given.
-/

namespace FreeRTOSpp

/-- Which entry function a task-creation call registers with the kernel:
the member-function trampoline `Task::entry_point`, a plain C function
pointer (`TaskFunction_t`), or the virtual trampoline `TaskBase::pxTaskCode`. -/
inductive EntryKind where
  | memberTrampoline : EntryKind
  | cFunction : EntryKind
  | taskBaseTrampoline : EntryKind
deriving DecidableEq, Repr

/-- One call into the FreeRTOS kernel, with the handle argument the
wrapper passed where the call takes a handle by value (`none` models
passing the C `NULL`). -/
inductive KernelCall where
  | taskCreate (entry : EntryKind) : KernelCall
  | taskDelete (h : Option Nat) : KernelCall
  | semCreateBinary : KernelCall
  | semCreateMutex : KernelCall
  | semGive (h : Option Nat) : KernelCall
  | semGiveFromISR (h : Option Nat) : KernelCall
  | semTake (h : Option Nat) (timeout : Nat) : KernelCall
  | semDelete (h : Option Nat) : KernelCall
deriving DecidableEq, Repr

/-- A kernel call passes a NULL handle when its by-value handle argument
is `none`. -/
def KernelCall.passesNullHandle : KernelCall → Bool
  | .taskDelete h => h.isNone
  | .semGive h => h.isNone
  | .semGiveFromISR h => h.isNone
  | .semTake h _ => h.isNone
  | .semDelete h => h.isNone
  | _ => false

/-- Whether a kernel call is a task-creation call. -/
def KernelCall.isCreate : KernelCall → Bool
  | .taskCreate _ => true
  | _ => false

/-- Outcome of one `xTaskCreatePinnedToCore` call: `ok` models
`result == pdPASS`, and `handle` is the task handle the kernel writes
through `&pxCreatedTask` on success (on failure the kernel leaves the
variable unchanged). -/
structure KernelCreate where
  ok : Bool
  handle : Nat
deriving DecidableEq, Repr

/-- State of a `Task<T>` object: the task handle `pxCreatedTask`, the
stored object pointer `obj` and the stored member-function pointer
`func` (both `NULL`-initialised raw pointers, modelled as `Option`).
`T` models the pointee type, `F` the member-function-pointer type. -/
structure Task (T F : Type) where
  pxCreatedTask : Option Nat
  obj : Option T
  func : Option F
deriving DecidableEq, Repr

/-- The constructor `Task() : pxCreatedTask(NULL) {}` together with the
field initialisers `obj = NULL`, `func = NULL`. -/
def Task.construct : Task T F := ⟨none, none, none⟩

/-- `Task::terminate`: if the handle is NULL return at once, otherwise
call `vTaskDelete(pxCreatedTask)` and set the handle to NULL. -/
def Task.terminate (s : Task T F) : Task T F × List KernelCall :=
  match s.pxCreatedTask with
  | none => (s, [])
  | some h => ({ s with pxCreatedTask := none }, [KernelCall.taskDelete (some h)])

/-- The member-function overload of `Task::start`: store `obj` and
`func`, terminate any existing task, then call
`xTaskCreatePinnedToCore(entry_point, ..., this, ..., &pxCreatedTask, ...)`
and return whether it yielded `pdPASS`. -/
def Task.start (s : Task T F) (obj : T) (func : F) (resp : KernelCreate) :
    Task T F × Bool × List KernelCall :=
  let s1 : Task T F := { s with obj := some obj, func := some func }
  let p := if s1.pxCreatedTask ≠ none then Task.terminate s1 else (s1, [])
  let s3 : Task T F :=
    { p.1 with pxCreatedTask := if resp.ok then some resp.handle else p.1.pxCreatedTask }
  (s3, resp.ok, p.2 ++ [KernelCall.taskCreate EntryKind.memberTrampoline])

/-- The `TaskFunction_t` overload of `Task::start`: terminate any
existing task, then call `xTaskCreatePinnedToCore(pvTaskCode, ...)` and
return whether it yielded `pdPASS`.  It does not touch `obj` or `func`. -/
def Task.startC (s : Task T F) (resp : KernelCreate) :
    Task T F × Bool × List KernelCall :=
  let p := if s.pxCreatedTask ≠ none then Task.terminate s else (s, [])
  let s3 : Task T F :=
    { p.1 with pxCreatedTask := if resp.ok then some resp.handle else p.1.pxCreatedTask }
  (s3, resp.ok, p.2 ++ [KernelCall.taskCreate EntryKind.cFunction])

/-- The destructor `~Task() { terminate(); }`. -/
def Task.destructor (s : Task T F) : Task T F × List KernelCall :=
  Task.terminate s

/-- `Task::entry_point(void* arg)` casts `arg` back to the `Task` object
and performs `(task_obj->obj->*task_obj->func)()`: it invokes the stored
member-function pointer on the stored object pointer.  We model the
invocation it performs as the pair (object called, member function
called). -/
def Task.entry_point (s : Task T F) : Option T × Option F :=
  (s.obj, s.func)

/-- State of a `CTask` object: just the task handle `pxCreatedTask`. -/
structure CTask where
  pxCreatedTask : Option Nat
deriving DecidableEq, Repr

/-- The constructor `CTask() : pxCreatedTask(NULL) {}`. -/
def CTask.construct : CTask := ⟨none⟩

/-- `CTask::terminate`: if the handle is NULL return at once, otherwise
call `vTaskDelete(pxCreatedTask)` and set the handle to NULL. -/
def CTask.terminate (s : CTask) : CTask × List KernelCall :=
  match s.pxCreatedTask with
  | none => (s, [])
  | some h => (⟨none⟩, [KernelCall.taskDelete (some h)])

/-- `CTask::start`: terminate any existing task, then call
`xTaskCreatePinnedToCore(pvTaskCode, ...)` and return whether it yielded
`pdPASS`. -/
def CTask.start (s : CTask) (resp : KernelCreate) :
    CTask × Bool × List KernelCall :=
  let p := if s.pxCreatedTask ≠ none then CTask.terminate s else (s, [])
  (⟨if resp.ok then some resp.handle else p.1.pxCreatedTask⟩, resp.ok,
    p.2 ++ [KernelCall.taskCreate EntryKind.cFunction])

/-- The destructor `~CTask() { terminate(); }`. -/
def CTask.destructor (s : CTask) : CTask × List KernelCall :=
  CTask.terminate s

/-- State of a `TaskBase` object: the task handle `pxCreatedTask`, plus
the derived implementation of the pure virtual method `task()`, fixed by
the dynamic type of the object (modelled abstractly by a value of `V`). -/
structure TaskBase (V : Type) where
  pxCreatedTask : Option Nat
  task : V
deriving DecidableEq, Repr

/-- The constructor `TaskBase() : pxCreatedTask(NULL) {}` of a derived
object whose virtual `task()` is `v`. -/
def TaskBase.construct (v : V) : TaskBase V := ⟨none, v⟩

/-- `TaskBase::createTask`: if the handle is non-NULL, log a warning and
return false without touching the kernel; otherwise call
`xTaskCreatePinnedToCore(pxTaskCode, ..., this, ..., &pxCreatedTask, ...)`,
log and return false when it did not yield `pdPASS`, and return true
otherwise. -/
def TaskBase.createTask (s : TaskBase V) (resp : KernelCreate) :
    TaskBase V × Bool × List KernelCall :=
  match s.pxCreatedTask with
  | some _ => (s, false, [])
  | none =>
    ({ s with pxCreatedTask := if resp.ok then some resp.handle else none }, resp.ok,
      [KernelCall.taskCreate EntryKind.taskBaseTrampoline])

/-- `TaskBase::deleteTask`: if the handle is NULL, log a warning and
return; otherwise call `vTaskDelete(pxCreatedTask)` and set the handle
to NULL. -/
def TaskBase.deleteTask (s : TaskBase V) : TaskBase V × List KernelCall :=
  match s.pxCreatedTask with
  | none => (s, [])
  | some h => ({ s with pxCreatedTask := none }, [KernelCall.taskDelete (some h)])

/-- The destructor `~TaskBase() { deleteTask(); }`. -/
def TaskBase.destructor (s : TaskBase V) : TaskBase V × List KernelCall :=
  TaskBase.deleteTask s

/-- `TaskBase::pxTaskCode(void* pvParameters)` casts the parameter back
to `TaskBase*` and calls its virtual `task()`: the invocation performed
is the implementation carried by that instance. -/
def TaskBase.pxTaskCode (s : TaskBase V) : V :=
  s.task

/-- State of a `Semaphore` object: just the semaphore handle
`xSemaphore`. -/
structure Semaphore where
  xSemaphore : Option Nat
deriving DecidableEq, Repr

/-- The `Semaphore` constructor: `xSemaphore = xSemaphoreCreateBinary()`
(logging to `std::cerr` if the kernel returned NULL).  `created` is the
handle the kernel returned, `none` when creation failed. -/
def Semaphore.construct (created : Option Nat) : Semaphore × List KernelCall :=
  (⟨created⟩, [KernelCall.semCreateBinary])

/-- The destructor `~Semaphore() { vSemaphoreDelete(xSemaphore); }`:
the stored handle is passed to the kernel with no NULL check. -/
def Semaphore.destructor (s : Semaphore) : List KernelCall :=
  [KernelCall.semDelete s.xSemaphore]

/-- `Semaphore::give`: `return pdTRUE == xSemaphoreGive(xSemaphore);`
with no NULL check on the handle.  `resp` models the kernel result. -/
def Semaphore.give (s : Semaphore) (resp : Bool) : Bool × List KernelCall :=
  (resp, [KernelCall.semGive s.xSemaphore])

/-- `Semaphore::giveFromISR`:
`return pdTRUE == xSemaphoreGiveFromISR(xSemaphore, NULL);` with no NULL
check on the handle. -/
def Semaphore.giveFromISR (s : Semaphore) (resp : Bool) : Bool × List KernelCall :=
  (resp, [KernelCall.semGiveFromISR s.xSemaphore])

/-- `Semaphore::take`:
`return pdTRUE == xSemaphoreTake(xSemaphore, xBlockTime);` with no NULL
check on the handle. -/
def Semaphore.take (s : Semaphore) (xBlockTime : Nat) (resp : Bool) :
    Bool × List KernelCall :=
  (resp, [KernelCall.semTake s.xSemaphore xBlockTime])

/-- State of a `Mutex` object: just the semaphore handle `xSemaphore`. -/
structure Mutex where
  xSemaphore : Option Nat
deriving DecidableEq, Repr

/-- The `Mutex` constructor: `xSemaphore = xSemaphoreCreateMutex()`
(logging to `std::cerr` if the kernel returned NULL). -/
def Mutex.construct (created : Option Nat) : Mutex × List KernelCall :=
  (⟨created⟩, [KernelCall.semCreateMutex])

/-- The destructor `~Mutex() { vSemaphoreDelete(xSemaphore); }`: the
stored handle is passed to the kernel with no NULL check. -/
def Mutex.destructor (s : Mutex) : List KernelCall :=
  [KernelCall.semDelete s.xSemaphore]

/-- `Mutex::give`: `return pdTRUE == xSemaphoreGive(xSemaphore);` with
no NULL check on the handle. -/
def Mutex.give (s : Mutex) (resp : Bool) : Bool × List KernelCall :=
  (resp, [KernelCall.semGive s.xSemaphore])

/-- `Mutex::giveFromISR`:
`return pdTRUE == xSemaphoreGiveFromISR(xSemaphore, NULL);` with no NULL
check on the handle. -/
def Mutex.giveFromISR (s : Mutex) (resp : Bool) : Bool × List KernelCall :=
  (resp, [KernelCall.semGiveFromISR s.xSemaphore])

/-- `Mutex::take`:
`return pdTRUE == xSemaphoreTake(xSemaphore, xBlockTime);` with no NULL
check on the handle. -/
def Mutex.take (s : Mutex) (xBlockTime : Nat) (resp : Bool) :
    Bool × List KernelCall :=
  (resp, [KernelCall.semTake s.xSemaphore xBlockTime])

end FreeRTOSpp

namespace FreeRTOSpp

/-- C1: for every task wrapper (`Task<T>`, `CTask`, `TaskBase`), after
`terminate`/`deleteTask` returns the stored task handle is NULL, and a
call while the handle is already NULL performs no kernel deletion call. -/
theorem terminate_nulls_handle_and_null_handle_skips_kernel :
    (∀ (T F : Type) (s : Task T F),
      (Task.terminate s).1.pxCreatedTask = none
        ∧ (Task.terminate { s with pxCreatedTask := none }).2 = [])
    ∧ (∀ s : CTask,
      (CTask.terminate s).1.pxCreatedTask = none)
    ∧ (CTask.terminate ⟨none⟩).2 = []
    ∧ (∀ (V : Type) (s : TaskBase V),
      (TaskBase.deleteTask s).1.pxCreatedTask = none
        ∧ (TaskBase.deleteTask { s with pxCreatedTask := none }).2 = []) := by
  refine ⟨fun T F s => ⟨?_, ?_⟩, fun s => ?_, ?_, fun V s => ⟨?_, ?_⟩⟩
  · rcases s with ⟨ph, o, f⟩; rcases ph <;> simp [Task.terminate]
  · rcases s with ⟨ph, o, f⟩; simp [Task.terminate]
  · rcases s with ⟨ph⟩; rcases ph <;> simp [CTask.terminate]
  · simp [CTask.terminate]
  · rcases s with ⟨ph, v⟩; rcases ph <;> simp [TaskBase.deleteTask]
  · rcases s with ⟨ph, v⟩; simp [TaskBase.deleteTask]

/-- C2 counterexample: a `Semaphore` whose constructor-time kernel
creation failed holds a NULL handle, and `give` then forwards that NULL
handle to the kernel with no null check, contradicting the claim that
every public operation checks the handle before forwarding. -/
theorem semaphore_give_forwards_null_handle :
    (Semaphore.construct none).1.xSemaphore = none
      ∧ (Semaphore.give (Semaphore.construct none).1 false).2
          = [KernelCall.semGive none]
      ∧ (KernelCall.semGive none).passesNullHandle = true := by
  decide

/-- C2 amended: the task wrappers never pass a NULL handle to the
kernel (their deletion paths are null-guarded and creation passes the
address of the handle), but the `Semaphore` and `Mutex` operations
forward the stored handle unconditionally, so they pass NULL exactly
when the stored handle is NULL. -/
theorem task_wrappers_never_pass_null_handle :
    (∀ (T F : Type) (s : Task T F) (o : T) (f : F) (r : KernelCreate),
      ((Task.start s o f r).2.2.all fun c => !c.passesNullHandle) = true
      ∧ ((Task.startC s r).2.2.all fun c => !c.passesNullHandle) = true
      ∧ ((Task.terminate s).2.all fun c => !c.passesNullHandle) = true)
    ∧ (∀ (s : CTask) (r : KernelCreate),
      ((CTask.start s r).2.2.all fun c => !c.passesNullHandle) = true
      ∧ ((CTask.terminate s).2.all fun c => !c.passesNullHandle) = true)
    ∧ (∀ (V : Type) (s : TaskBase V) (r : KernelCreate),
      ((TaskBase.createTask s r).2.2.all fun c => !c.passesNullHandle) = true
      ∧ ((TaskBase.deleteTask s).2.all fun c => !c.passesNullHandle) = true)
    ∧ (∀ (s : Semaphore) (t : Nat) (r : Bool),
      (Semaphore.give s r).2 = [KernelCall.semGive s.xSemaphore]
      ∧ (Semaphore.giveFromISR s r).2 = [KernelCall.semGiveFromISR s.xSemaphore]
      ∧ (Semaphore.take s t r).2 = [KernelCall.semTake s.xSemaphore t]
      ∧ Semaphore.destructor s = [KernelCall.semDelete s.xSemaphore])
    ∧ (∀ (m : Mutex) (t : Nat) (r : Bool),
      (Mutex.give m r).2 = [KernelCall.semGive m.xSemaphore]
      ∧ (Mutex.giveFromISR m r).2 = [KernelCall.semGiveFromISR m.xSemaphore]
      ∧ (Mutex.take m t r).2 = [KernelCall.semTake m.xSemaphore t]
      ∧ Mutex.destructor m = [KernelCall.semDelete m.xSemaphore]) := by
  refine ⟨fun T F s o f r => ⟨?_, ?_, ?_⟩, fun s r => ⟨?_, ?_⟩,
    fun V s r => ⟨?_, ?_⟩, fun s t r => ⟨rfl, rfl, rfl, rfl⟩,
    fun m t r => ⟨rfl, rfl, rfl, rfl⟩⟩
  · rcases s with ⟨ph, o0, f0⟩; rcases ph <;>
      simp [Task.start, Task.terminate, KernelCall.passesNullHandle]
  · rcases s with ⟨ph, o0, f0⟩; rcases ph <;>
      simp [Task.startC, Task.terminate, KernelCall.passesNullHandle]
  · rcases s with ⟨ph, o0, f0⟩; rcases ph <;>
      simp [Task.terminate, KernelCall.passesNullHandle]
  · rcases s with ⟨ph⟩; rcases ph <;>
      simp [CTask.start, CTask.terminate, KernelCall.passesNullHandle]
  · rcases s with ⟨ph⟩; rcases ph <;>
      simp [CTask.terminate, KernelCall.passesNullHandle]
  · rcases s with ⟨ph, v⟩; rcases ph <;>
      simp [TaskBase.createTask, KernelCall.passesNullHandle]
  · rcases s with ⟨ph, v⟩; rcases ph <;>
      simp [TaskBase.deleteTask, KernelCall.passesNullHandle]

end FreeRTOSpp

namespace FreeRTOSpp

/-- C3 counterexample: calling `Task<T>::start` while a task is already
created (handle `some 1`) does not fail: when the kernel creation
succeeds it returns true, and its kernel-call trace contains a task
creation, contradicting the claim that a second start returns false and
creates no task. -/
theorem task_start_while_created_succeeds :
    (Task.start (⟨some 1, none, none⟩ : Task Nat Nat) 0 0 ⟨true, 2⟩).2.1 = true
      ∧ ((Task.start (⟨some 1, none, none⟩ : Task Nat Nat) 0 0 ⟨true, 2⟩).2.2.any
          KernelCall.isCreate) = true := by
  decide

/-- C3 amended: `TaskBase::createTask` called while a task is already
created returns false and performs no kernel call; `Task<T>::start` and
`CTask::start` called while a task exists instead delete the existing
task and then create a new one, returning the result of the new
creation. -/
theorem second_create_fails_only_for_taskbase :
    (∀ (V : Type) (s : TaskBase V) (h : Nat) (r : KernelCreate),
      TaskBase.createTask { s with pxCreatedTask := some h } r
        = ({ s with pxCreatedTask := some h }, false, []))
    ∧ (∀ (T F : Type) (s : Task T F) (o : T) (f : F) (h : Nat) (r : KernelCreate),
      (Task.start { s with pxCreatedTask := some h } o f r).2.1 = r.ok
      ∧ (Task.start { s with pxCreatedTask := some h } o f r).2.2
          = [KernelCall.taskDelete (some h), KernelCall.taskCreate EntryKind.memberTrampoline])
    ∧ (∀ (h : Nat) (r : KernelCreate),
      (CTask.start ⟨some h⟩ r).2.1 = r.ok
      ∧ (CTask.start ⟨some h⟩ r).2.2
          = [KernelCall.taskDelete (some h), KernelCall.taskCreate EntryKind.cFunction]) := by
  refine ⟨fun V s h r => ?_, fun T F s o f h r => ⟨rfl, ?_⟩, fun h r => ⟨rfl, ?_⟩⟩
  · simp [TaskBase.createTask]
  · simp [Task.start, Task.terminate]
  · simp [CTask.start, CTask.terminate]

/-- C4: every boolean-returning operation returns true exactly when the
underlying kernel call reported success (`pdPASS`/`pdTRUE`); when the
guard in `TaskBase::createTask` skips the kernel call the result is
false; and no operation retries: each start/create performs exactly one
creation call, and each semaphore/mutex operation exactly its single
forwarded call. -/
theorem bool_results_mirror_kernel_result :
    (∀ (T F : Type) (s : Task T F) (o : T) (f : F) (r : KernelCreate),
      (Task.start s o f r).2.1 = r.ok
      ∧ (Task.startC s r).2.1 = r.ok
      ∧ ((Task.start s o f r).2.2.filter KernelCall.isCreate).length = 1
      ∧ ((Task.startC s r).2.2.filter KernelCall.isCreate).length = 1)
    ∧ (∀ (s : CTask) (r : KernelCreate),
      (CTask.start s r).2.1 = r.ok
      ∧ ((CTask.start s r).2.2.filter KernelCall.isCreate).length = 1)
    ∧ (∀ (V : Type) (s : TaskBase V) (h : Nat) (r : KernelCreate),
      (TaskBase.createTask { s with pxCreatedTask := none } r).2.1 = r.ok
      ∧ (TaskBase.createTask { s with pxCreatedTask := some h } r).2.1 = false
      ∧ (TaskBase.createTask { s with pxCreatedTask := some h } r).2.2 = [])
    ∧ (∀ (s : Semaphore) (t : Nat) (r : Bool),
      (Semaphore.give s r).1 = r
      ∧ (Semaphore.giveFromISR s r).1 = r
      ∧ (Semaphore.take s t r).1 = r)
    ∧ (∀ (m : Mutex) (t : Nat) (r : Bool),
      (Mutex.give m r).1 = r
      ∧ (Mutex.giveFromISR m r).1 = r
      ∧ (Mutex.take m t r).1 = r) := by
  refine ⟨fun T F s o f r => ⟨rfl, rfl, ?_, ?_⟩, fun s r => ⟨rfl, ?_⟩,
    fun V s h r => ⟨?_, ?_, ?_⟩, fun s t r => ⟨rfl, rfl, rfl⟩,
    fun m t r => ⟨rfl, rfl, rfl⟩⟩
  · rcases s with ⟨ph, o0, f0⟩; rcases ph <;>
      simp [Task.start, Task.terminate, KernelCall.isCreate]
  · rcases s with ⟨ph, o0, f0⟩; rcases ph <;>
      simp [Task.startC, Task.terminate, KernelCall.isCreate]
  · rcases s with ⟨ph⟩; rcases ph <;>
      simp [CTask.start, CTask.terminate, KernelCall.isCreate]
  · simp [TaskBase.createTask]
  · simp [TaskBase.createTask]
  · simp [TaskBase.createTask]

/-- C5 counterexample: the `Semaphore` constructor itself performs the
kernel creation call, so when the kernel returns handle 5 the stored
handle is non-NULL directly at construction, before (and without) any
explicit start/create call, contradicting the claim that every wrapper
handle is NULL from construction until the first start/create call. -/
theorem semaphore_handle_created_by_constructor :
    (Semaphore.construct (some 5)).1.xSemaphore = some 5
      ∧ (Semaphore.construct (some 5)).2 = [KernelCall.semCreateBinary] := by
  decide

/-- C5 amended: for the task wrappers the handle is NULL from
construction until the first start/create call, becomes the
kernel-written handle on a successful creation, and is nulled on
termination and by the destructor; for `Semaphore` and `Mutex` the
handle is created by the constructor itself (NULL only when the kernel
creation failed) and passed to the kernel deletion call by the
destructor. -/
theorem handle_lifecycle :
    (∀ (T F : Type), (Task.construct : Task T F).pxCreatedTask = none)
    ∧ CTask.construct.pxCreatedTask = none
    ∧ (∀ (V : Type) (v : V), (TaskBase.construct v).pxCreatedTask = none)
    ∧ (∀ (T F : Type) (s : Task T F) (o : T) (f : F) (h : Nat),
      (Task.start s o f ⟨true, h⟩).1.pxCreatedTask = some h
      ∧ (Task.startC s ⟨true, h⟩).1.pxCreatedTask = some h
      ∧ (Task.destructor s).1.pxCreatedTask = none)
    ∧ (∀ (s : CTask) (h : Nat),
      (CTask.start s ⟨true, h⟩).1.pxCreatedTask = some h
      ∧ (CTask.destructor s).1.pxCreatedTask = none)
    ∧ (∀ (V : Type) (v : V) (h : Nat) (s : TaskBase V),
      (TaskBase.createTask (TaskBase.construct v) ⟨true, h⟩).1.pxCreatedTask = some h
      ∧ (TaskBase.destructor s).1.pxCreatedTask = none)
    ∧ (∀ c : Option Nat,
      (Semaphore.construct c).1.xSemaphore = c
      ∧ (Mutex.construct c).1.xSemaphore = c
      ∧ (Semaphore.construct c).2 = [KernelCall.semCreateBinary]
      ∧ (Mutex.construct c).2 = [KernelCall.semCreateMutex]
      ∧ Semaphore.destructor (Semaphore.construct c).1 = [KernelCall.semDelete c]
      ∧ Mutex.destructor (Mutex.construct c).1 = [KernelCall.semDelete c]) := by
  refine ⟨fun T F => rfl, rfl, fun V v => rfl,
    fun T F s o f h => ⟨?_, ?_, ?_⟩, fun s h => ⟨?_, ?_⟩,
    fun V v h s => ⟨?_, ?_⟩, fun c => ⟨rfl, rfl, rfl, rfl, rfl, rfl⟩⟩
  · rcases s with ⟨ph, o0, f0⟩; rcases ph <;> simp [Task.start, Task.terminate]
  · rcases s with ⟨ph, o0, f0⟩; rcases ph <;> simp [Task.startC, Task.terminate]
  · rcases s with ⟨ph, o0, f0⟩; rcases ph <;> simp [Task.destructor, Task.terminate]
  · rcases s with ⟨ph⟩; rcases ph <;> simp [CTask.start, CTask.terminate]
  · rcases s with ⟨ph⟩; rcases ph <;> simp [CTask.destructor, CTask.terminate]
  · simp [TaskBase.createTask, TaskBase.construct]
  · rcases s with ⟨ph, v0⟩; rcases ph <;> simp [TaskBase.destructor, TaskBase.deleteTask]

/-- C6 counterexample: `Task<T>::start` on an object that already holds
a task (handle `some 1`) performs two kernel calls, a deletion followed
by a creation, contradicting the claim that no method performs two or
more kernel calls. -/
theorem task_start_performs_two_kernel_calls :
    ((Task.start (⟨some 1, none, none⟩ : Task Nat Nat) 0 0 ⟨true, 2⟩).2.2).length = 2 := by
  decide

/-- C6 amended: every method performs at most one kernel call, guarded
by the null check on the stored handle (the `Semaphore`/`Mutex`
operations always perform exactly their one call, unguarded), except
`Task<T>::start` and `CTask::start`, which perform two kernel calls
(deletion of the existing task, then creation) when the handle is
non-NULL. -/
theorem kernel_call_counts_per_method :
    (∀ (T F : Type) (s : Task T F) (o : T) (f : F) (h : Nat) (r : KernelCreate),
      (Task.start { s with pxCreatedTask := none } o f r).2.2.length = 1
      ∧ (Task.start { s with pxCreatedTask := some h } o f r).2.2.length = 2
      ∧ (Task.startC { s with pxCreatedTask := none } r).2.2.length = 1
      ∧ (Task.startC { s with pxCreatedTask := some h } r).2.2.length = 2
      ∧ (Task.terminate { s with pxCreatedTask := none }).2.length = 0
      ∧ (Task.terminate { s with pxCreatedTask := some h }).2.length = 1)
    ∧ (∀ (h : Nat) (r : KernelCreate),
      (CTask.start ⟨none⟩ r).2.2.length = 1
      ∧ (CTask.start ⟨some h⟩ r).2.2.length = 2
      ∧ (CTask.terminate ⟨none⟩).2.length = 0
      ∧ (CTask.terminate ⟨some h⟩).2.length = 1)
    ∧ (∀ (V : Type) (s : TaskBase V) (h : Nat) (r : KernelCreate),
      (TaskBase.createTask { s with pxCreatedTask := none } r).2.2.length = 1
      ∧ (TaskBase.createTask { s with pxCreatedTask := some h } r).2.2.length = 0
      ∧ (TaskBase.deleteTask { s with pxCreatedTask := none }).2.length = 0
      ∧ (TaskBase.deleteTask { s with pxCreatedTask := some h }).2.length = 1)
    ∧ (∀ (s : Semaphore) (t : Nat) (r : Bool),
      (Semaphore.give s r).2.length = 1
      ∧ (Semaphore.giveFromISR s r).2.length = 1
      ∧ (Semaphore.take s t r).2.length = 1)
    ∧ (∀ (m : Mutex) (t : Nat) (r : Bool),
      (Mutex.give m r).2.length = 1
      ∧ (Mutex.giveFromISR m r).2.length = 1
      ∧ (Mutex.take m t r).2.length = 1) := by
  refine ⟨fun T F s o f h r => ⟨?_, ?_, ?_, ?_, ?_, ?_⟩,
    fun h r => ⟨?_, ?_, ?_, ?_⟩, fun V s h r => ⟨?_, ?_, ?_, ?_⟩,
    fun s t r => ⟨rfl, rfl, rfl⟩, fun m t r => ⟨rfl, rfl, rfl⟩⟩
  · simp [Task.start, Task.terminate]
  · simp [Task.start, Task.terminate]
  · simp [Task.startC, Task.terminate]
  · simp [Task.startC, Task.terminate]
  · simp [Task.terminate]
  · simp [Task.terminate]
  · simp [CTask.start, CTask.terminate]
  · simp [CTask.start, CTask.terminate]
  · simp [CTask.terminate]
  · simp [CTask.terminate]
  · simp [TaskBase.createTask]
  · simp [TaskBase.createTask]
  · simp [TaskBase.deleteTask]
  · simp [TaskBase.deleteTask]

end FreeRTOSpp

namespace FreeRTOSpp

/-- C7: after `Task<T>::start(obj, func, ...)` the static trampoline
`entry_point`, invoked by the kernel with the `Task` instance as its
argument, calls exactly `func` on exactly `obj`; and `TaskBase::pxTaskCode`,
invoked with the `TaskBase` instance as parameter, calls that instance's
virtual `task()` implementation. -/
theorem trampoline_dispatches_stored_member :
    (∀ (T F : Type) (s : Task T F) (o : T) (f : F) (r : KernelCreate),
      Task.entry_point (Task.start s o f r).1 = (some o, some f))
    ∧ (∀ (V : Type) (s : TaskBase V),
      TaskBase.pxTaskCode s = s.task) := by
  refine ⟨fun T F s o f r => ?_, fun V s => rfl⟩
  rcases s with ⟨ph, o0, f0⟩; rcases ph <;>
    simp [Task.start, Task.terminate, Task.entry_point]

/-- C8 counterexample: `Task<T>::start` is a public operation that
writes per-object state other than the handle: starting a
default-constructed `Task` with object pointer 7 changes the stored
`obj` field from NULL to 7, contradicting the claim that no public
operation reads or writes anything but the single kernel handle. -/
theorem task_start_writes_obj_field :
    (Task.start (Task.construct : Task Nat Nat) 7 3 ⟨false, 0⟩).1.obj = some 7
      ∧ (Task.construct : Task Nat Nat).obj = none := by
  decide

/-- C8 amended: `CTask`, `Semaphore` and `Mutex` objects consist of
exactly their one kernel handle and nothing else; `TaskBase`
additionally carries the derived virtual `task()` implementation; and
`Task<T>` additionally stores the object pointer `obj` and the
member-function pointer `func`, which `start` writes and `entry_point`
reads. -/
theorem wrapper_state_is_handle_except_task :
    (∀ s : CTask, s = ⟨s.pxCreatedTask⟩)
    ∧ (∀ s : Semaphore, s = ⟨s.xSemaphore⟩)
    ∧ (∀ m : Mutex, m = ⟨m.xSemaphore⟩)
    ∧ (∀ (V : Type) (s : TaskBase V), s = ⟨s.pxCreatedTask, s.task⟩)
    ∧ (∀ (T F : Type) (s : Task T F) (o : T) (f : F) (r : KernelCreate),
      (Task.start s o f r).1.obj = some o
      ∧ (Task.start s o f r).1.func = some f
      ∧ Task.entry_point s = (s.obj, s.func)) := by
  refine ⟨fun s => rfl, fun s => rfl, fun m => rfl, fun V s => rfl,
    fun T F s o f r => ⟨?_, ?_, rfl⟩⟩
  · rcases s with ⟨ph, o0, f0⟩; rcases ph <;> simp [Task.start, Task.terminate]
  · rcases s with ⟨ph, o0, f0⟩; rcases ph <;> simp [Task.start, Task.terminate]

/-- C9: the `Semaphore` and `Mutex` destructors pass the stored handle
to the kernel deletion call unconditionally, even when it is NULL after
a failed creation (the emitted call passes a NULL handle), whereas each
task wrapper's destructor performs no kernel call when its handle is
NULL. -/
theorem semaphore_destructor_deletes_unconditionally :
    (∀ s : Semaphore, Semaphore.destructor s = [KernelCall.semDelete s.xSemaphore])
    ∧ (∀ m : Mutex, Mutex.destructor m = [KernelCall.semDelete m.xSemaphore])
    ∧ Semaphore.destructor (Semaphore.construct none).1 = [KernelCall.semDelete none]
    ∧ (KernelCall.semDelete none).passesNullHandle = true
    ∧ (∀ (T F : Type) (s : Task T F),
      (Task.destructor { s with pxCreatedTask := none }).2 = [])
    ∧ (CTask.destructor ⟨none⟩).2 = []
    ∧ (∀ (V : Type) (s : TaskBase V),
      (TaskBase.destructor { s with pxCreatedTask := none }).2 = []) := by
  refine ⟨fun s => rfl, fun m => rfl, rfl, rfl, fun T F s => ?_, rfl, fun V s => ?_⟩
  · simp [Task.destructor, Task.terminate]
  · simp [TaskBase.destructor, TaskBase.deleteTask]

/-- C10: `Task<T>::start` stores the object pointer and member-function
pointer before attempting creation, so both fields hold the new
arguments after every call, including when the kernel creation fails
and `start` returns false. -/
theorem task_start_stores_obj_func_even_on_failure :
    ∀ (T F : Type) (s : Task T F) (o : T) (f : F) (n : Nat) (r : KernelCreate),
      (Task.start s o f r).1.obj = some o
      ∧ (Task.start s o f r).1.func = some f
      ∧ (Task.start s o f ⟨false, n⟩).1.obj = some o
      ∧ (Task.start s o f ⟨false, n⟩).1.func = some f
      ∧ (Task.start s o f ⟨false, n⟩).2.1 = false := by
  intro T F s o f n r
  rcases s with ⟨ph, o0, f0⟩
  refine ⟨?_, ?_, ?_, ?_, rfl⟩ <;> rcases ph <;> simp [Task.start, Task.terminate]

end FreeRTOSpp
